import Mathlib

/-
Verification of the driver of the loxide bytecode interpreter
(src/loxide/src/main.rs).  The driver consists of four functions:
`main` (argument-count dispatch), `repl` (one compile+run cycle per
stdin line, with `interpret(&line).unwrap()`), `run_file`
(`read_to_string(path).unwrap()` then `interpret(&string).unwrap()`),
and `interpret` (fresh Chunk, fresh Compiler, `compile`, and on success
a fresh VM whose `run` result is returned).

The compiler and VM themselves (modules `chunk`, `compile`, `value`,
`vm`) are external collaborators of the driver; the driver is embedded
parametrically over any such core (`CoreSem`), and every theorem about
the driver is quantified over every core.  A concrete spec-modelled
core instance (`demoCore`) is used only to evaluate the driver at
specific inputs.  The embedding instruments the driver with the list
of observable events it performs (constructions, reads, calls,
diagnostics) so that short-circuiting and reporting behaviour can be
stated precisely.
-/

namespace Loxide

/-- Modelled from the spec (§3): the runtime value representation; the
module `value` (src/loxide/src/value.rs) is not under src/.  The spec
prescribes double-precision floats; rationals stand in, since no driver
claim depends on floating-point rounding. -/
inductive Value where
  | number (n : ℚ)
  | boolean (b : Bool)
  | nil
deriving DecidableEq

/-- Modelled from the spec (§3): the bytecode container; the module
`chunk` (src/loxide/src/chunk.rs) is not under src/.  A Chunk is a byte
sequence, a parallel line map, and a constant pool. -/
structure Chunk where
  code : List Nat
  lines : List Nat
  constants : List Value
deriving DecidableEq

/-- `Chunk::new()` as used by `interpret` in main.rs: a fresh, empty chunk. -/
def Chunk.new : Chunk := ⟨[], [], []⟩

/-- Modelled from the spec (§6, §7): the kind of a runtime fault; the
module `vm` (src/loxide/src/vm.rs) is not under src/. -/
inductive FaultKind where
  | typeMismatch
  | stackUnderflow
deriving DecidableEq

/-- Modelled from the spec (§6): a RuntimeError carries a fault kind, a
message, and the source line; the module `vm` is not under src/. -/
structure RuntimeFault where
  kind : FaultKind
  msg : String
  line : Nat
deriving DecidableEq

/-- The error type returned by `interpret`.  main.rs constructs
`InterpretError::CompileError` with no payload, so the CompileError
variant is nullary; the RuntimeError variant's payload is modelled from
the spec (§6) since `vm` is not under src/. -/
inductive InterpretError where
  | CompileError
  | RuntimeError (fault : RuntimeFault)
deriving DecidableEq

deriving instance DecidableEq for Except

/-- Whether an interpret result is a success. -/
def resOk : Except InterpretError Unit → Bool
  | Except.ok _ => true
  | Except.error _ => false

/-- Modelled from the spec (§1, §6): the out-of-scope core entry points
the driver calls.  `compile src chunk` is `Compiler::new(src, chunk)`
followed by `compiler.compile()`, returning the success flag and the
compiler's chunk; `run chunk` is `VM::new(chunk)` followed by
`vm.run()`.  The modules `compile` and `vm` are not under src/, so the
driver theorems are quantified over every such core. -/
structure CoreSem where
  compile : String → Chunk → Bool × Chunk
  run : Chunk → Except InterpretError Unit

/-- Observable events of one driver execution, used to state
short-circuiting, freshness-per-iteration, and reporting properties. -/
inductive DriverEvent where
  | chunkNew
  | compilerNew (src : String)
  | compileCalled
  | vmNew (chunk : Chunk)
  | runCalled
  | readLine (l : String)
  | readFile (path : String)
  | diagnostic (line : Nat) (msg : String)
deriving DecidableEq

/-- Whether an event is the emission of a user-facing diagnostic. -/
def DriverEvent.isDiagnostic : DriverEvent → Bool
  | DriverEvent.diagnostic _ _ => true
  | _ => false

/-- Shallow embedding of `interpret` (main.rs lines 49-61), paired with
the events it performs: it builds a fresh Chunk and a fresh Compiler
for `src`, calls `compile`, and returns `Err(CompileError)` if that
fails; otherwise it moves the compiler's chunk into a fresh VM and
returns `vm.run()`. -/
def interpretTr (core : CoreSem) (src : String) :
    Except InterpretError Unit × List DriverEvent :=
  match core.compile src Chunk.new with
  | (false, _) =>
      (Except.error InterpretError.CompileError,
       [DriverEvent.chunkNew, DriverEvent.compilerNew src,
        DriverEvent.compileCalled])
  | (true, chunk) =>
      (core.run chunk,
       [DriverEvent.chunkNew, DriverEvent.compilerNew src,
        DriverEvent.compileCalled, DriverEvent.vmNew chunk,
        DriverEvent.runCalled])

/-- The result of `interpret` (main.rs lines 49-61). -/
def interpret (core : CoreSem) (src : String) : Except InterpretError Unit :=
  (interpretTr core src).1

/-- Outcome of the whole process: a normal exit with a status code, or
an abort via a Rust panic (which terminates with the panic status,
101 by default, for every panic alike). -/
inductive ProcOutcome where
  | exited (code : Nat)
  | panicked
deriving DecidableEq

/-- Shallow embedding of `repl` (main.rs lines 34-42) run on a list of
stdin lines, paired with its events: each line is read and passed to
`interpret(&line).unwrap()`, so the first `Err` panics the process and
no further line is read; exhausting stdin returns from `main`, exiting
with status 0. -/
def replTr (core : CoreSem) : List String → ProcOutcome × List DriverEvent
  | [] => (ProcOutcome.exited 0, [])
  | l :: rest =>
      match interpretTr core l with
      | (Except.ok _, evs) =>
          let r := replTr core rest
          (r.1, (DriverEvent.readLine l :: evs) ++ r.2)
      | (Except.error _, evs) =>
          (ProcOutcome.panicked, DriverEvent.readLine l :: evs)

/-- The lines the REPL actually interprets, each with its result:
processing stops after the first erroneous line. -/
def replProcessed (core : CoreSem) :
    List String → List (String × Except InterpretError Unit)
  | [] => []
  | l :: rest =>
      if resOk (interpret core l) then
        (l, interpret core l) :: replProcessed core rest
      else
        [(l, interpret core l)]

/-- Shallow embedding of `run_file` (main.rs lines 44-47), paired with
its events.  The file system is a map from path to optional contents;
`read_to_string(path).unwrap()` panics when the file cannot be read,
and `interpret(&string).unwrap()` panics on any interpret error. -/
def runFileTr (core : CoreSem) (fs : String → Option String)
    (path : String) : ProcOutcome × List DriverEvent :=
  match fs path with
  | none => (ProcOutcome.panicked, [DriverEvent.readFile path])
  | some text =>
      match interpretTr core text with
      | (Except.ok _, evs) =>
          (ProcOutcome.exited 0, DriverEvent.readFile path :: evs)
      | (Except.error _, evs) =>
          (ProcOutcome.panicked, DriverEvent.readFile path :: evs)

/-- Shallow embedding of `main` (main.rs lines 17-32).  `args` is the
argument list after the program name; zero arguments enter the REPL,
exactly one runs that file, and any other count hits the bare
`panic!()` arm. -/
def mainTr (core : CoreSem) (fs : String → Option String)
    (stdin : List String) (args : List String) :
    ProcOutcome × List DriverEvent :=
  match args with
  | [] => replTr core stdin
  | [p] => runFileTr core fs p
  | _ :: _ :: _ => (ProcOutcome.panicked, [])

/-- Modelled from the spec: a concrete instance of the out-of-scope
core (the modules `compile` and `vm` are not under src/), used only to
evaluate the driver at specific inputs; the driver theorems hold for
every core.  Per §4.2 and §8 the truncated expression "1 +" is a
compile failure; per §8 a chunk that negates a Boolean faults at run
time with a type-mismatch, which "-true" compiles to. -/
def demoCore : CoreSem where
  compile := fun src chunk =>
    if src = "1 +" then (false, chunk)
    else if src = "-true" then
      (true, { chunk with code := [3, 1], lines := [1, 1] })
    else (true, { chunk with code := [0], lines := [1] })
  run := fun chunk =>
    if chunk.code = [3, 1] then
      Except.error (InterpretError.RuntimeError
        ⟨FaultKind.typeMismatch, "Operand must be a number.", 1⟩)
    else Except.ok ()

/-- Modelled from the spec: a concrete file system for evaluating the
file mode of the driver. -/
def demoFs : String → Option String := fun p =>
  if p = "bad.lox" then some "1 +"
  else if p = "rt.lox" then some "-true"
  else if p = "ok.lox" then some "1"
  else none

/-- Every run of `interpret` begins by constructing a fresh Chunk, then
a fresh Compiler for the given source, then calling `compile`. -/
theorem interpretTr_events_head (core : CoreSem) (l : String) :
    ∃ tail, (interpretTr core l).2 =
      DriverEvent.chunkNew :: DriverEvent.compilerNew l ::
        DriverEvent.compileCalled :: tail := by
  rcases hc : core.compile l Chunk.new with ⟨b, c⟩
  cases b <;> simp [interpretTr, hc]

/-- The REPL's event stream is the concatenation, in order, of one
block per processed line: the read of that line followed by that line's
own interpret events. -/
theorem replTr_events_blocks (core : CoreSem) (ls : List String) :
    (replTr core ls).2 =
      List.flatten (((replProcessed core ls).map Prod.fst).map
        (fun l => DriverEvent.readLine l :: (interpretTr core l).2)) := by
  induction ls with
  | nil => simp [replTr, replProcessed]
  | cons l rest ih =>
      rcases hi : interpretTr core l with ⟨r, evs⟩
      have hr : interpret core l = r := by simp [interpret, hi]
      cases r with
      | ok u =>
          simp [replTr, replProcessed, hi, hr, resOk, ih]
      | error e =>
          simp [replTr, replProcessed, hi, hr, resOk]

/-- Every processed line's recorded result is `interpret` of that line
alone: no state from earlier lines enters the result. -/
theorem replProcessed_results (core : CoreSem) (ls : List String) :
    ∀ p ∈ replProcessed core ls, p.2 = interpret core p.1 := by
  induction ls with
  | nil => simp [replProcessed]
  | cons l rest ih =>
      intro p hp
      by_cases hok : resOk (interpret core l) = true
      · rw [replProcessed, if_pos hok] at hp
        rcases List.mem_cons.mp hp with hp | hp
        · subst hp; rfl
        · exact ih p hp
      · rw [replProcessed, if_neg hok] at hp
        have hp := List.mem_singleton.mp hp
        subst hp; rfl

/-- Prepending lines that all interpret successfully to the REPL input
prepends their blocks to the events and their results to the processed
list, leaving the remainder's processing unchanged. -/
theorem replTr_append_ok (core : CoreSem) (pre ls : List String)
    (hpre : ∀ p ∈ pre, resOk (interpret core p) = true) :
    replTr core (pre ++ ls) =
      ((replTr core ls).1,
        List.flatten (pre.map
          (fun s => DriverEvent.readLine s :: (interpretTr core s).2))
          ++ (replTr core ls).2) ∧
    replProcessed core (pre ++ ls) =
      pre.map (fun s => (s, interpret core s)) ++ replProcessed core ls := by
  induction pre with
  | nil => simp
  | cons p rest ih =>
      have hp : resOk (interpret core p) = true := hpre p (by simp)
      have hrest : ∀ q ∈ rest, resOk (interpret core q) = true := by
        intro q hq; exact hpre q (by simp [hq])
      rcases hi : interpretTr core p with ⟨r, evs⟩
      have hr : interpret core p = r := by simp [interpret, hi]
      cases r with
      | ok u =>
          rcases ih hrest with ⟨ih1, ih2⟩
          constructor
          · simp [replTr, hi, ih1]
          · simp [replProcessed, hr, resOk, ih2]
      | error e =>
          rw [hr] at hp
          simp [resOk] at hp


/-- C1: for every core and source text, if `Compiler::compile` fails,
`interpret` returns `Err(CompileError)` and its events are exactly the
chunk construction, the compiler construction, and the compile call:
no VM is ever constructed and `run` is never invoked; dually, a VM
construction or a `run` call in the events implies compilation
succeeded. -/
theorem interpret_compile_failure_short_circuits (core : CoreSem)
    (src : String) (h : (core.compile src Chunk.new).1 = false) :
    interpret core src = Except.error InterpretError.CompileError ∧
    (interpretTr core src).2 =
      [DriverEvent.chunkNew, DriverEvent.compilerNew src,
       DriverEvent.compileCalled] ∧
    (∀ c, DriverEvent.vmNew c ∉ (interpretTr core src).2) ∧
    DriverEvent.runCalled ∉ (interpretTr core src).2 ∧
    (∀ s, (DriverEvent.runCalled ∈ (interpretTr core s).2 ∨
           (∃ c, DriverEvent.vmNew c ∈ (interpretTr core s).2)) →
      (core.compile s Chunk.new).1 = true) := by
  rcases hc : core.compile src Chunk.new with ⟨b, c⟩
  rw [hc] at h
  simp at h
  subst h
  refine ⟨?_, ?_, ?_, ?_, ?_⟩
  · simp [interpret, interpretTr, hc]
  · simp [interpretTr, hc]
  · simp [interpretTr, hc]
  · simp [interpretTr, hc]
  · intro s hs
    rcases hcs : core.compile s Chunk.new with ⟨bs, cs⟩
    cases bs
    · simp [interpretTr, hcs] at hs
    · rfl

/-- C1 witness: the spec-modelled core rejects the truncated expression
"1 +", and `interpret` on it returns a CompileError. -/
theorem interpret_compile_failure_short_circuits_inst :
    (demoCore.compile "1 +" Chunk.new).1 = false ∧
    interpret demoCore "1 +" = Except.error InterpretError.CompileError :=
  ⟨by decide,
   (interpret_compile_failure_short_circuits demoCore "1 +" (by decide)).1⟩

/-- C2 (code bug): the spec requires a compile error in a REPL line to
leave the process alive and reading further lines, but `repl` calls
`interpret(&line).unwrap()`: when the line "1 +" fails to compile the
process panics, and the following line "1" is never read. -/
theorem repl_compile_error_crashes_process :
    (replTr demoCore ["1 +", "1"]).1 = ProcOutcome.panicked ∧
    DriverEvent.readLine "1" ∉ (replTr demoCore ["1 +", "1"]).2 ∧
    DriverEvent.runCalled ∉ (replTr demoCore ["1 +", "1"]).2 := by decide

/-- C3 (code bug): the spec requires every failure path to produce a
diagnostic with a source line and a message, but the driver emits no
diagnostic at all on its failure paths: `InterpretError::CompileError`
is built with no payload in main.rs, and both `repl` and `run_file`
just `unwrap`, aborting via panic, in the REPL compile-error case and
in the file-mode runtime-error case alike. -/
theorem driver_failure_paths_emit_no_diagnostic :
    (replTr demoCore ["1 +"]).1 = ProcOutcome.panicked ∧
    (replTr demoCore ["1 +"]).2.all
      (fun e => !e.isDiagnostic) = true ∧
    (runFileTr demoCore demoFs "rt.lox").1 = ProcOutcome.panicked ∧
    (runFileTr demoCore demoFs "rt.lox").2.all
      (fun e => !e.isDiagnostic) = true ∧
    interpret demoCore "1 +" = Except.error InterpretError.CompileError := by
  decide

/-- C4: when more than one command-line argument follows the program
name, `main` hits the bare `panic!()` arm: the process aborts with no
event at all, in particular with no reported configuration
diagnostic. -/
theorem main_extra_args_panics (core : CoreSem)
    (fs : String → Option String) (stdin args : List String)
    (h : 2 ≤ args.length) :
    mainTr core fs stdin args = (ProcOutcome.panicked, []) := by
  match args with
  | [] => simp at h
  | [p] => simp at h
  | a :: b :: rest => rfl

/-- C4 witness: two arguments after the program name abort the
process. -/
theorem main_extra_args_panics_inst :
    2 ≤ (["a.lox", "b.lox"] : List String).length ∧
    mainTr demoCore demoFs [] ["a.lox", "b.lox"] =
      (ProcOutcome.panicked, []) :=
  ⟨by decide, main_extra_args_panics demoCore demoFs [] ["a.lox", "b.lox"]
    (by decide)⟩

/-- C5: the REPL is strictly sequential and stateless across lines:
its event stream is the in-order concatenation of one block per
processed line (the read of the line followed by that line's complete
interpret events, so each line's compilation and execution finishes
before the next line is read); every recorded result is a function of
that line alone; and every iteration's interpret events begin by
constructing a fresh Chunk and a fresh Compiler, with any VM likewise
constructed inside that iteration's block. -/
theorem repl_sequential_and_stateless (core : CoreSem)
    (ls : List String) :
    (replTr core ls).2 =
      List.flatten (((replProcessed core ls).map Prod.fst).map
        (fun l => DriverEvent.readLine l :: (interpretTr core l).2)) ∧
    (∀ p ∈ replProcessed core ls, p.2 = interpret core p.1) ∧
    (∀ l, ∃ tail, (interpretTr core l).2 =
      DriverEvent.chunkNew :: DriverEvent.compilerNew l ::
        DriverEvent.compileCalled :: tail) :=
  ⟨replTr_events_blocks core ls, replProcessed_results core ls,
   fun l => interpretTr_events_head core l⟩

/-- C6: `main` with zero arguments is exactly the REPL on stdin and
with one argument exactly `run_file` on that path; when the file is
readable, `run_file` reads it and performs exactly one interpretation,
of the file's whole text, exiting 0 precisely when that interpretation
succeeds. -/
theorem main_mode_selection (core : CoreSem)
    (fs : String → Option String) (stdin : List String)
    (p text : String) (h : fs p = some text) :
    mainTr core fs stdin [] = replTr core stdin ∧
    mainTr core fs stdin [p] = runFileTr core fs p ∧
    (runFileTr core fs p).2 =
      DriverEvent.readFile p :: (interpretTr core text).2 ∧
    ((runFileTr core fs p).1 = ProcOutcome.exited 0 ↔
      resOk (interpret core text) = true) := by
  refine ⟨rfl, rfl, ?_, ?_⟩
  · rcases hi : interpretTr core text with ⟨r, evs⟩
    cases r <;> simp [runFileTr, h, hi]
  · rcases hi : interpretTr core text with ⟨r, evs⟩
    have hr : interpret core text = r := by simp [interpret, hi]
    cases r <;> simp [runFileTr, h, hi, hr, resOk]

/-- C6 witness: with no argument `main` is the REPL, and with the
single argument "ok.lox" it runs that file, which exits 0. -/
theorem main_mode_selection_inst :
    demoFs "ok.lox" = some "1" ∧
    mainTr demoCore demoFs ["1"] [] = replTr demoCore ["1"] ∧
    mainTr demoCore demoFs ["1"] ["ok.lox"] =
      runFileTr demoCore demoFs "ok.lox" :=
  ⟨by decide,
   (main_mode_selection demoCore demoFs ["1"] "ok.lox" "1" (by decide)).1,
   (main_mode_selection demoCore demoFs ["1"] "ok.lox" "1" (by decide)).2.1⟩

/-- C7 (code bug): the spec requires the exit status to distinguish
success, compile error and runtime error, but the driver `unwrap`s
every error: a compile-error file and a runtime-error file both
terminate the process by the same panic abort (panic exit status,
101 by default), while only success is distinguished by exiting 0. -/
theorem exit_status_same_for_both_error_kinds :
    (runFileTr demoCore demoFs "bad.lox").1 = ProcOutcome.panicked ∧
    (runFileTr demoCore demoFs "rt.lox").1 = ProcOutcome.panicked ∧
    interpret demoCore "1 +" = Except.error InterpretError.CompileError ∧
    interpret demoCore "-true" = Except.error (InterpretError.RuntimeError
      ⟨FaultKind.typeMismatch, "Operand must be a number.", 1⟩) ∧
    (runFileTr demoCore demoFs "ok.lox").1 = ProcOutcome.exited 0 := by
  decide

/-- C8: interpreting the same line twice in one REPL session yields
literally the same result and the same event block both times: the
driver threads no state between the two invocations of `interpret`, so
independent runs of one source text behave identically. -/
theorem interpret_same_line_twice_identical (core : CoreSem) (l : String)
    (h : resOk (interpret core l) = true) :
    replProcessed core [l, l] =
      [(l, interpret core l), (l, interpret core l)] ∧
    (replTr core [l, l]).2 =
      (DriverEvent.readLine l :: (interpretTr core l).2) ++
      (DriverEvent.readLine l :: (interpretTr core l).2) := by
  rcases hi : interpretTr core l with ⟨r, evs⟩
  have hr : interpret core l = r := by simp [interpret, hi]
  cases r with
  | ok u =>
      constructor
      · simp [replProcessed, hr, resOk]
      · simp [replTr, hi]
  | error e =>
      rw [hr] at h
      simp [resOk] at h

/-- C8 witness: the line "1" interprets successfully, and twice in a
row it gives the same result. -/
theorem interpret_same_line_twice_identical_inst :
    resOk (interpret demoCore "1") = true ∧
    replProcessed demoCore ["1", "1"] =
      [("1", interpret demoCore "1"), ("1", interpret demoCore "1")] :=
  ⟨by decide,
   (interpret_same_line_twice_identical demoCore "1" (by decide)).1⟩

/-- C9: in REPL mode the first erroneous line terminates the whole
process via the `unwrap`: with every line of `pre` interpreting
successfully and `l` failing, the process panics, the events are
exactly the blocks of `pre` followed by the block of `l`, and the
processed list ends at `l` — no line of `post` is ever read, compiled,
or run. -/
theorem repl_first_error_stops_reading (core : CoreSem)
    (pre post : List String) (l : String)
    (hpre : ∀ p ∈ pre, resOk (interpret core p) = true)
    (herr : resOk (interpret core l) = false) :
    (replTr core (pre ++ l :: post)).1 = ProcOutcome.panicked ∧
    (replTr core (pre ++ l :: post)).2 =
      List.flatten (pre.map
        (fun s => DriverEvent.readLine s :: (interpretTr core s).2))
        ++ (DriverEvent.readLine l :: (interpretTr core l).2) ∧
    replProcessed core (pre ++ l :: post) =
      pre.map (fun s => (s, interpret core s)) ++
        [(l, interpret core l)] := by
  rcases replTr_append_ok core pre (l :: post) hpre with ⟨h1, h2⟩
  rcases hi : interpretTr core l with ⟨r, evs⟩
  have hr : interpret core l = r := by simp [interpret, hi]
  cases r with
  | ok u =>
      rw [hr] at herr
      simp [resOk] at herr
  | error e =>
      have htail : replTr core (l :: post) =
          (ProcOutcome.panicked, DriverEvent.readLine l :: evs) := by
        simp [replTr, hi]
      have htailp : replProcessed core (l :: post) =
          [(l, interpret core l)] := by
        rw [replProcessed, if_neg (by rw [hr]; simp [resOk])]
      refine ⟨?_, ?_, ?_⟩
      · rw [h1, htail]
      · rw [h1, htail]
      · rw [h2, htailp]

/-- C9 witness: after the successful line "1", the failing line "1 +"
panics the REPL and the line "2" after it is never processed. -/
theorem repl_first_error_stops_reading_inst :
    (∀ p ∈ (["1"] : List String), resOk (interpret demoCore p) = true) ∧
    resOk (interpret demoCore "1 +") = false ∧
    (replTr demoCore (["1"] ++ "1 +" :: ["2"])).1 =
      ProcOutcome.panicked :=
  ⟨by decide, by decide,
   (repl_first_error_stops_reading demoCore ["1"] ["2"] "1 +"
     (by decide) (by decide)).1⟩

/-- C10: in file mode, an unreadable path makes `read_to_string`'s
`unwrap` panic at once: the only event is the read attempt — no chunk
or compiler is constructed, compilation is never attempted, and no
diagnostic carrying a line or an error taxonomy is produced. -/
theorem run_file_missing_file_panics_before_compile (core : CoreSem)
    (fs : String → Option String) (p : String) (h : fs p = none) :
    runFileTr core fs p = (ProcOutcome.panicked, [DriverEvent.readFile p]) := by
  simp [runFileTr, h]

/-- C10 witness: the path "missing.lox" is absent from the modelled
file system and file mode panics on it before compiling anything. -/
theorem run_file_missing_file_panics_before_compile_inst :
    demoFs "missing.lox" = none ∧
    runFileTr demoCore demoFs "missing.lox" =
      (ProcOutcome.panicked, [DriverEvent.readFile "missing.lox"]) :=
  ⟨by decide,
   run_file_missing_file_panics_before_compile demoCore demoFs
     "missing.lox" (by decide)⟩

end Loxide
